import Mathlib

/-!
Verification of the ICS-20 token-transfer command of the relayer CLI
(`relayer-cli/src/commands/tx/transfer.rs`).

The command structure, `validate_options` and `run` are translated from the
source file. The collaborator types that live elsewhere in the repository
(`ChannelEnd`, `ConnectionEnd`, `ClientState`, `Config`/`find_chain`, the
chain-handle queries and the transfer dispatcher) are modelled from the spec:
the queries and the dispatcher are abstracted as an oracle (`World`) giving
the result each call would return, and `run` additionally records the trace
of queries it issued and of dispatcher invocations.
-/

namespace IbcTransfer

/-- Modelled from the spec: an opaque, comparable chain identifier. -/
abbrev ChainId := String

abbrev PortId := String

abbrev ChannelId := String

abbrev ConnectionId := String

abbrev ClientId := String

/-- Modelled from the spec: a ledger event emitted by the dispatcher,
kept opaque. -/
abbrev IbcEvent := String

/-- Modelled from the spec: the per-chain configuration entry; only its
presence and its key name matter to this component. -/
structure ChainConfig where
  id : ChainId
  key_name : String
deriving DecidableEq

/-- Modelled from the spec: the configuration is a collection of chain
entries, looked up by chain id via `find_chain`. -/
structure Config where
  chains : List ChainConfig
deriving DecidableEq

/-- Modelled from the spec: `find_chain(id) -> config?`, the configuration
lookup used by `validate_options`. -/
def find_chain (config : Config) (id : ChainId) : Option ChainConfig :=
  config.chains.find? (fun c => c.id == id)

/-- Modelled from the spec: the channel state enumeration
(Init, TryOpen, Open, Closed). -/
inductive State where
  | Init
  | TryOpen
  | Open
  | Closed
deriving DecidableEq

/-- Modelled from the spec: the displayed name of a channel state, used in
the not-open error message. -/
def State.display : State → String
  | .Init => "Init"
  | .TryOpen => "TryOpen"
  | .Open => "Open"
  | .Closed => "Closed"

/-- Modelled from the spec: a channel end with its state and its ordered
list of connection hops. -/
structure ChannelEnd where
  state : State
  connection_hops : List ConnectionId
deriving DecidableEq

/-- Modelled from the spec: `is_open` holds exactly when the state is
`Open`. -/
def ChannelEnd.is_open (c : ChannelEnd) : Bool :=
  c.state == State.Open

/-- Modelled from the spec: a connection end; this component uses only its
client identifier. -/
structure ConnectionEnd where
  client_id : ClientId
deriving DecidableEq

/-- Modelled from the spec: a light-client record; this component uses only
the chain identifier it tracks. -/
structure ClientState where
  chain_id : ChainId
deriving DecidableEq

/-- Modelled from the spec: a duration value; `timeout_seconds` is converted
into one by `Duration::from_secs`. -/
structure Duration where
  secs : Nat
  nanos : Nat
deriving DecidableEq

def Duration.from_secs (s : Nat) : Duration :=
  { secs := s, nanos := 0 }

/-- Modelled from the spec: the validated, immutable transfer request built
by `validate_options` and consumed by the dispatcher. Field names follow the
source construction site. -/
structure TransferOptions where
  packet_src_port_id : PortId
  packet_src_channel_id : ChannelId
  amount : Nat
  denom : String
  receiver : Option String
  timeout_height_offset : Nat
  timeout_duration : Duration
  number_msgs : Nat
deriving DecidableEq

/-- The command's fields, translated from the `TxIcs20MsgTransferCmd` struct
declaration. `denom`, `timeout_height_offset` and `timeout_seconds` already
carry their parse-time defaults, as in the source where clap applies
`default_value` before the struct is built. -/
structure TxIcs20MsgTransferCmd where
  dst_chain_id : ChainId
  src_chain_id : ChainId
  src_port_id : PortId
  src_channel_id : ChannelId
  amount : Nat
  timeout_height_offset : Nat
  timeout_seconds : Nat
  receiver : Option String
  denom : String
  number_msgs : Option Nat
  key_name : Option String
deriving DecidableEq

/-- The raw command line before clap applies defaults: every optional flag is
still an `Option`. -/
structure RawArgs where
  dst_chain_id : ChainId
  src_chain_id : ChainId
  src_port_id : PortId
  src_channel_id : ChannelId
  amount : Nat
  timeout_height_offset : Option Nat
  timeout_seconds : Option Nat
  receiver : Option String
  denom : Option String
  number_msgs : Option Nat
  key_name : Option String
deriving DecidableEq

/-- Building the command from raw arguments, translated from the `#[clap]`
attributes: `denom` defaults to `"samoleans"`, the two timeout fields default
to `0`, and `receiver`, `number_msgs`, `key_name` stay optional. -/
def parseArgs (a : RawArgs) : TxIcs20MsgTransferCmd :=
  { dst_chain_id := a.dst_chain_id
    src_chain_id := a.src_chain_id
    src_port_id := a.src_port_id
    src_channel_id := a.src_channel_id
    amount := a.amount
    timeout_height_offset := a.timeout_height_offset.getD 0
    timeout_seconds := a.timeout_seconds.getD 0
    receiver := a.receiver
    denom := a.denom.getD "samoleans"
    number_msgs := a.number_msgs
    key_name := a.key_name }

/-- The error message for a source chain missing from the configuration,
translated from the source format string. -/
def missingSrcMsg (id : ChainId) : String :=
  s!"missing configuration for source chain \x27{id}\x27"

/-- The error message for a destination chain missing from the configuration,
translated from the source format string. -/
def missingDstMsg (id : ChainId) : String :=
  s!"missing configuration for destination chain \x27{id}\x27"

/-- The error message for a zero repetition count, translated from the
source. -/
def numberMsgsZeroMsg : String :=
  "number of messages should be greater than zero"

/-- `TxIcs20MsgTransferCmd::validate_options`, translated from the source:
look up the source chain, then the destination chain, default the repetition
count to 1, reject 0, and build the `TransferOptions`. -/
def validate_options (cmd : TxIcs20MsgTransferCmd) (config : Config) :
    Except String TransferOptions :=
  match find_chain config cmd.src_chain_id with
  | none => .error (missingSrcMsg cmd.src_chain_id)
  | some _ =>
    match find_chain config cmd.dst_chain_id with
    | none => .error (missingDstMsg cmd.dst_chain_id)
    | some _ =>
      let denom := cmd.denom
      let number_msgs := cmd.number_msgs.getD 1
      if number_msgs == 0 then
        .error numberMsgsZeroMsg
      else
        .ok
          { packet_src_port_id := cmd.src_port_id
            packet_src_channel_id := cmd.src_channel_id
            amount := cmd.amount
            denom := denom
            receiver := cmd.receiver
            timeout_height_offset := cmd.timeout_height_offset
            timeout_duration := Duration.from_secs cmd.timeout_seconds
            number_msgs := number_msgs }

/-- The error message for a channel that is not open, translated from the
source format string. -/
def channelNotOpenMsg (port : PortId) (chan : ChannelId) (chain : ChainId)
    (st : State) : String :=
  s!"the requested port/channel (\x27{port}\x27/\x27{chan}\x27) on chain id \x27{chain}\x27 is in state \x27{st.display}\x27; expected \x27open\x27 state"

/-- The error message for an empty connection-hop list, translated from the
source format string. -/
def noHopMsg (port : PortId) (chan : ChannelId) (chain : ChainId) : String :=
  s!"could not retrieve the connection hop underlying port/channel \x27{port}\x27/\x27{chan}\x27 on chain \x27{chain}\x27"

/-- The destination-chain mismatch error message, translated from the source
format string: it names both the actual tracked chain id and the expected
destination chain id. -/
def mismatchMsg (port : PortId) (chan : ChannelId) (src actual expected : ChainId) :
    String :=
  s!"the requested port/channel (\x27{port}\x27/\x27{chan}\x27) provides a path from chain \x27{src}\x27 to chain \x27{actual}\x27 (not to the destination chain \x27{expected}\x27). Bailing due to mismatching arguments."

/-- The terminal outcome of a run: exactly one success report carrying the
event sequence, or one error report carrying a message
(`Output::success` / `Output::error` followed by `.exit()`). -/
inductive Output where
  | success (events : List IbcEvent)
  | error (msg : String)
deriving DecidableEq

/-- Modelled from the spec: the oracle giving the result each collaborator
call would return in this run — chain-handle spawning, the three read
queries (keyed the way the source keys them), and the transfer
dispatcher. -/
structure World where
  spawn : Except String Unit
  query_channel : PortId → ChannelId → Except String ChannelEnd
  query_connection : ConnectionId → Except String ConnectionEnd
  query_client_state : ClientId → Except String ClientState
  dispatch : TransferOptions → Except String (List IbcEvent)

/-- The observable result of one run: the terminal outcome plus the trace of
queries issued and dispatcher invocations. -/
structure RunResult where
  outcome : Output
  channel_queries : List (PortId × ChannelId)
  connection_queries : List ConnectionId
  client_state_queries : List ClientId
  dispatch_calls : List TransferOptions
deriving DecidableEq

/-- `TxIcs20MsgTransferCmd::run`, translated from the source: validate the
options, spawn the handle pair, query the channel end, require it open,
take the first connection hop, query the connection end, query the client
state for its client id, require the tracked chain id to equal the requested
destination, then invoke the dispatcher once; every failure short-circuits
into a single error outcome. -/
def run (cmd : TxIcs20MsgTransferCmd) (config : Config) (w : World) : RunResult :=
  match validate_options cmd config with
  | .error err =>
    { outcome := .error err, channel_queries := [], connection_queries := [],
      client_state_queries := [], dispatch_calls := [] }
  | .ok opts =>
    match w.spawn with
    | .error e =>
      { outcome := .error e, channel_queries := [], connection_queries := [],
        client_state_queries := [], dispatch_calls := [] }
    | .ok _ =>
      match w.query_channel opts.packet_src_port_id opts.packet_src_channel_id with
      | .error e =>
        { outcome := .error e,
          channel_queries := [(opts.packet_src_port_id, opts.packet_src_channel_id)],
          connection_queries := [], client_state_queries := [], dispatch_calls := [] }
      | .ok channel_end_src =>
        if !channel_end_src.is_open then
          { outcome := .error (channelNotOpenMsg opts.packet_src_port_id
              opts.packet_src_channel_id cmd.src_chain_id channel_end_src.state),
            channel_queries := [(opts.packet_src_port_id, opts.packet_src_channel_id)],
            connection_queries := [], client_state_queries := [], dispatch_calls := [] }
        else
          match channel_end_src.connection_hops.head? with
          | none =>
            { outcome := .error (noHopMsg opts.packet_src_port_id
                opts.packet_src_channel_id cmd.src_chain_id),
              channel_queries := [(opts.packet_src_port_id, opts.packet_src_channel_id)],
              connection_queries := [], client_state_queries := [], dispatch_calls := [] }
          | some conn_id =>
            match w.query_connection conn_id with
            | .error e =>
              { outcome := .error e,
                channel_queries := [(opts.packet_src_port_id, opts.packet_src_channel_id)],
                connection_queries := [conn_id], client_state_queries := [],
                dispatch_calls := [] }
            | .ok conn_end =>
              match w.query_client_state conn_end.client_id with
              | .error e =>
                { outcome := .error e,
                  channel_queries := [(opts.packet_src_port_id, opts.packet_src_channel_id)],
                  connection_queries := [conn_id],
                  client_state_queries := [conn_end.client_id], dispatch_calls := [] }
              | .ok src_chain_client_state =>
                if src_chain_client_state.chain_id ≠ cmd.dst_chain_id then
                  { outcome := .error (mismatchMsg opts.packet_src_port_id
                      opts.packet_src_channel_id cmd.src_chain_id
                      src_chain_client_state.chain_id cmd.dst_chain_id),
                    channel_queries := [(opts.packet_src_port_id, opts.packet_src_channel_id)],
                    connection_queries := [conn_id],
                    client_state_queries := [conn_end.client_id], dispatch_calls := [] }
                else
                  match w.dispatch opts with
                  | .ok ev =>
                    { outcome := .success ev,
                      channel_queries := [(opts.packet_src_port_id, opts.packet_src_channel_id)],
                      connection_queries := [conn_id],
                      client_state_queries := [conn_end.client_id],
                      dispatch_calls := [opts] }
                  | .error e =>
                    { outcome := .error e,
                      channel_queries := [(opts.packet_src_port_id, opts.packet_src_channel_id)],
                      connection_queries := [conn_id],
                      client_state_queries := [conn_end.client_id],
                      dispatch_calls := [opts] }

/-! ### Concrete fixtures used by the witness theorems -/

def cfgW : Config :=
  { chains := [{ id := "chain-a", key_name := "key-a" },
               { id := "chain-b", key_name := "key-b" }] }

def cmdW : TxIcs20MsgTransferCmd :=
  { dst_chain_id := "chain-b", src_chain_id := "chain-a",
    src_port_id := "transfer", src_channel_id := "channel-0", amount := 42,
    timeout_height_offset := 0, timeout_seconds := 0, receiver := none,
    denom := "samoleans", number_msgs := none, key_name := none }

def optsW : TransferOptions :=
  { packet_src_port_id := "transfer", packet_src_channel_id := "channel-0",
    amount := 42, denom := "samoleans", receiver := none,
    timeout_height_offset := 0, timeout_duration := Duration.from_secs 0,
    number_msgs := 1 }

def chOpen : ChannelEnd := { state := .Open, connection_hops := ["connection-0"] }

def chClosed : ChannelEnd := { state := .Closed, connection_hops := ["connection-0"] }

def chNoHops : ChannelEnd := { state := .Open, connection_hops := [] }

def wGood : World :=
  { spawn := .ok ()
    query_channel := fun _ _ => .ok chOpen
    query_connection := fun _ => .ok { client_id := "07-tendermint-0" }
    query_client_state := fun _ => .ok { chain_id := "chain-b" }
    dispatch := fun _ => .ok ["send_packet"] }

def wMismatch : World :=
  { wGood with query_client_state := fun _ => .ok { chain_id := "chain-c" } }

def wClosed : World :=
  { wGood with query_channel := fun _ _ => .ok chClosed }

def wNoHops : World :=
  { wGood with query_channel := fun _ _ => .ok chNoHops }

/-- The `TransferOptions` that `validate_options` builds from a command when
both lookups succeed and the repetition count resolves to `n`. -/
def mkOpts (cmd : TxIcs20MsgTransferCmd) (n : Nat) : TransferOptions :=
  { packet_src_port_id := cmd.src_port_id
    packet_src_channel_id := cmd.src_channel_id
    amount := cmd.amount
    denom := cmd.denom
    receiver := cmd.receiver
    timeout_height_offset := cmd.timeout_height_offset
    timeout_duration := Duration.from_secs cmd.timeout_seconds
    number_msgs := n }

def rawArgsW : RawArgs :=
  { dst_chain_id := "chain-b", src_chain_id := "chain-a",
    src_port_id := "transfer", src_channel_id := "channel-0", amount := 42,
    timeout_height_offset := none, timeout_seconds := some 5,
    receiver := some "cosmos1xyz", denom := none, number_msgs := none,
    key_name := none }

def optsC7 : TransferOptions :=
  { packet_src_port_id := "transfer", packet_src_channel_id := "channel-0",
    amount := 42, denom := "samoleans", receiver := some "cosmos1xyz",
    timeout_height_offset := 0, timeout_duration := Duration.from_secs 5,
    number_msgs := 1 }

def cmdAllThreeBad : TxIcs20MsgTransferCmd :=
  { cmdW with src_chain_id := "chain-x", dst_chain_id := "chain-y", number_msgs := some 0 }

def cmdDstBadZero : TxIcs20MsgTransferCmd :=
  { cmdW with dst_chain_id := "chain-y", number_msgs := some 0 }

def cmdZeroMsgs : TxIcs20MsgTransferCmd :=
  { cmdW with number_msgs := some 0 }

/-! ### Claims -/

/-- C1: in every run where the channel, connection and client-state queries
are all issued and succeed, if the client state's tracked chain id differs
from the requested destination chain id, the run ends with the mismatch
error naming both the actual tracked chain id and the expected destination
chain id, and the transfer dispatcher is never invoked. -/
theorem C1_mismatch_error_no_dispatch
    (cmd : TxIcs20MsgTransferCmd) (config : Config) (w : World)
    (opts : TransferOptions) (ch : ChannelEnd) (cid : ConnectionId)
    (conn : ConnectionEnd) (cs : ClientState)
    (hval : validate_options cmd config = .ok opts)
    (hsp : w.spawn = .ok ())
    (hch : w.query_channel opts.packet_src_port_id opts.packet_src_channel_id = .ok ch)
    (hopen : ch.is_open = true)
    (hhop : ch.connection_hops.head? = some cid)
    (hconn : w.query_connection cid = .ok conn)
    (hcs : w.query_client_state conn.client_id = .ok cs)
    (hne : cs.chain_id ≠ cmd.dst_chain_id) :
    (run cmd config w).outcome =
      Output.error (mismatchMsg opts.packet_src_port_id opts.packet_src_channel_id
        cmd.src_chain_id cs.chain_id cmd.dst_chain_id) ∧
    (run cmd config w).dispatch_calls = [] := by
  simp only [run, hval, hsp, hch]
  simp [hopen, hhop, hconn, hcs, hne]

theorem C1_witness :
    (run cmdW cfgW wMismatch).outcome =
      Output.error (mismatchMsg optsW.packet_src_port_id optsW.packet_src_channel_id
        cmdW.src_chain_id "chain-c" cmdW.dst_chain_id) ∧
    (run cmdW cfgW wMismatch).dispatch_calls = [] :=
  C1_mismatch_error_no_dispatch cmdW cfgW wMismatch optsW chOpen "connection-0"
    { client_id := "07-tendermint-0" } { chain_id := "chain-c" }
    rfl rfl rfl rfl rfl rfl rfl (by decide)

/-- C3: in every run where the channel-end query is issued and succeeds with
a channel whose state is not Open, the run ends with the error naming the
port id, channel id, source chain id and the observed state, and no
connection query (nor any later step) is issued. -/
theorem C3_not_open_fails_before_connection
    (cmd : TxIcs20MsgTransferCmd) (config : Config) (w : World)
    (opts : TransferOptions) (ch : ChannelEnd)
    (hval : validate_options cmd config = .ok opts)
    (hsp : w.spawn = .ok ())
    (hch : w.query_channel opts.packet_src_port_id opts.packet_src_channel_id = .ok ch)
    (hnot : ch.state ≠ State.Open) :
    (run cmd config w).outcome =
      Output.error (channelNotOpenMsg opts.packet_src_port_id
        opts.packet_src_channel_id cmd.src_chain_id ch.state) ∧
    (run cmd config w).connection_queries = [] ∧
    (run cmd config w).dispatch_calls = [] := by
  have hopen : ch.is_open = false := by
    simpa [ChannelEnd.is_open] using hnot
  simp only [run, hval, hsp, hch]
  simp [hopen]

theorem C3_witness :
    (run cmdW cfgW wClosed).outcome =
      Output.error (channelNotOpenMsg optsW.packet_src_port_id
        optsW.packet_src_channel_id cmdW.src_chain_id State.Closed) ∧
    (run cmdW cfgW wClosed).connection_queries = [] ∧
    (run cmdW cfgW wClosed).dispatch_calls = [] :=
  C3_not_open_fails_before_connection cmdW cfgW wClosed optsW chClosed
    rfl rfl rfl (by decide)

/-- C4: in every run that reaches an Open channel end, an empty
connection-hop list ends the run with the error naming the port id, channel
id and source chain id, and no connection query is issued; a non-empty hop
list makes the first hop id the key of the (single) connection query. -/
theorem C4_connection_hops
    (cmd : TxIcs20MsgTransferCmd) (config : Config) (w : World)
    (opts : TransferOptions) (ch : ChannelEnd)
    (hval : validate_options cmd config = .ok opts)
    (hsp : w.spawn = .ok ())
    (hch : w.query_channel opts.packet_src_port_id opts.packet_src_channel_id = .ok ch)
    (hopen : ch.is_open = true) :
    (ch.connection_hops = [] →
      (run cmd config w).outcome =
        Output.error (noHopMsg opts.packet_src_port_id opts.packet_src_channel_id
          cmd.src_chain_id) ∧
      (run cmd config w).connection_queries = []) ∧
    (∀ cid rest, ch.connection_hops = cid :: rest →
      (run cmd config w).connection_queries = [cid]) := by
  simp only [run, hval, hsp, hch]
  simp only [hopen, Bool.not_true, Bool.false_eq_true, if_false]
  constructor
  · intro hnil
    simp [hnil]
  · intro cid rest hcons
    rcases hconn : w.query_connection cid with e | conn
    · simp [hcons, hconn]
    · rcases hcs : w.query_client_state conn.client_id with e | cs
      · simp [hcons, hconn, hcs]
      · by_cases heq : cs.chain_id = cmd.dst_chain_id
        · rcases hd : w.dispatch opts with e | ev <;>
            simp [hcons, hconn, hcs, heq, hd]
        · simp [hcons, hconn, hcs, heq]

theorem C4_witness :
    ((run cmdW cfgW wNoHops).outcome =
      Output.error (noHopMsg optsW.packet_src_port_id optsW.packet_src_channel_id
        cmdW.src_chain_id) ∧
     (run cmdW cfgW wNoHops).connection_queries = []) ∧
    (run cmdW cfgW wGood).connection_queries = ["connection-0"] :=
  ⟨(C4_connection_hops cmdW cfgW wNoHops optsW chNoHops rfl rfl rfl rfl).1 rfl,
   (C4_connection_hops cmdW cfgW wGood optsW chOpen rfl rfl rfl rfl).2
     "connection-0" [] rfl⟩

/-- C5: `validate_options` fails with the missing-configuration error naming
the source side whenever the source chain id is absent from the
configuration, with the error naming the destination side whenever the
source is present but the destination chain id is absent, and when both are
present it passes the configuration-lookup requirement: the only remaining
outcomes are success or the repetition-count error. -/
theorem C5_missing_config
    (cmd : TxIcs20MsgTransferCmd) (config : Config) :
    (find_chain config cmd.src_chain_id = none →
      validate_options cmd config = .error (missingSrcMsg cmd.src_chain_id)) ∧
    (∀ c, find_chain config cmd.src_chain_id = some c →
      find_chain config cmd.dst_chain_id = none →
      validate_options cmd config = .error (missingDstMsg cmd.dst_chain_id)) ∧
    (∀ c d, find_chain config cmd.src_chain_id = some c →
      find_chain config cmd.dst_chain_id = some d →
      validate_options cmd config = .error numberMsgsZeroMsg ∨
      ∃ opts, validate_options cmd config = .ok opts) := by
  refine ⟨fun hs => ?_, fun c hs hd => ?_, fun c d hs hd => ?_⟩
  · simp only [validate_options, hs]
  · simp only [validate_options, hs, hd]
  · simp only [validate_options, hs, hd]
    by_cases h0 : cmd.number_msgs.getD 1 == 0
    · simp [h0]
    · simp [h0]

theorem C5_witness :
    validate_options { cmdW with src_chain_id := "chain-x" } cfgW =
      .error (missingSrcMsg "chain-x") ∧
    validate_options { cmdW with dst_chain_id := "chain-y" } cfgW =
      .error (missingDstMsg "chain-y") ∧
    (validate_options cmdW cfgW = .error numberMsgsZeroMsg ∨
      ∃ opts, validate_options cmdW cfgW = .ok opts) :=
  ⟨(C5_missing_config { cmdW with src_chain_id := "chain-x" } cfgW).1 rfl,
   (C5_missing_config { cmdW with dst_chain_id := "chain-y" } cfgW).2.1
     { id := "chain-a", key_name := "key-a" } rfl rfl,
   (C5_missing_config cmdW cfgW).2.2
     { id := "chain-a", key_name := "key-a" }
     { id := "chain-b", key_name := "key-b" } rfl rfl⟩

/-- C6: with both chain ids present in the configuration, an explicitly
supplied repetition count of 0 is rejected with exactly the error
"number of messages should be greater than zero"; an omitted count defaults
to 1; and every explicitly supplied count N > 0 appears unchanged as
`number_msgs` in the resulting `TransferOptions`. -/
theorem C6_number_msgs
    (cmd : TxIcs20MsgTransferCmd) (config : Config)
    (hs : (find_chain config cmd.src_chain_id).isSome = true)
    (hd : (find_chain config cmd.dst_chain_id).isSome = true) :
    (cmd.number_msgs = some 0 →
      validate_options cmd config = .error numberMsgsZeroMsg) ∧
    (cmd.number_msgs = none →
      ∃ opts, validate_options cmd config = .ok opts ∧ opts.number_msgs = 1) ∧
    (∀ n, 0 < n → cmd.number_msgs = some n →
      ∃ opts, validate_options cmd config = .ok opts ∧ opts.number_msgs = n) := by
  rcases Option.isSome_iff_exists.mp hs with ⟨c, hc⟩
  rcases Option.isSome_iff_exists.mp hd with ⟨d, hdc⟩
  refine ⟨fun h0 => ?_, fun hnone => ?_, fun n hn hsome => ?_⟩
  · simp [validate_options, hc, hdc, h0]
  · refine ⟨mkOpts cmd 1, ?_, rfl⟩
    simp [validate_options, mkOpts, hc, hdc, hnone]
  · refine ⟨mkOpts cmd n, ?_, rfl⟩
    simp [validate_options, mkOpts, hc, hdc, hsome, Nat.pos_iff_ne_zero.mp hn]

theorem C6_witness :
    validate_options { cmdW with number_msgs := some 0 } cfgW =
      .error numberMsgsZeroMsg ∧
    (∃ opts, validate_options cmdW cfgW = .ok opts ∧ opts.number_msgs = 1) ∧
    (∃ opts, validate_options { cmdW with number_msgs := some 7 } cfgW = .ok opts ∧
      opts.number_msgs = 7) :=
  ⟨(C6_number_msgs { cmdW with number_msgs := some 0 } cfgW rfl rfl).1 rfl,
   (C6_number_msgs cmdW cfgW rfl rfl).2.1 rfl,
   (C6_number_msgs { cmdW with number_msgs := some 7 } cfgW rfl rfl).2.2
     7 (by decide) rfl⟩

/-- C7: every successful validation passes the input fields through
unchanged: `denom` is the fixed default "samoleans" when omitted on the
command line and the supplied string otherwise; `receiver` is absent when
omitted and the supplied value otherwise; the timeout height offset and the
timeout seconds default to 0 and otherwise pass through, with the seconds
converted to a duration of that many seconds. -/
theorem C7_field_passthrough
    (a : RawArgs) (config : Config) (opts : TransferOptions)
    (h : validate_options (parseArgs a) config = .ok opts) :
    opts.denom = a.denom.getD "samoleans" ∧
    opts.receiver = a.receiver ∧
    opts.timeout_height_offset = a.timeout_height_offset.getD 0 ∧
    opts.timeout_duration = Duration.from_secs (a.timeout_seconds.getD 0) := by
  unfold validate_options at h
  split at h
  · exact absurd h (by simp)
  · split at h
    · exact absurd h (by simp)
    · dsimp only at h
      split at h
      · exact absurd h (by simp)
      · rw [Except.ok.injEq] at h
        subst h
        exact ⟨rfl, rfl, rfl, rfl⟩

theorem C7_witness :
    validate_options (parseArgs rawArgsW) cfgW = .ok optsC7 ∧
    optsC7.denom = rawArgsW.denom.getD "samoleans" ∧
    optsC7.receiver = rawArgsW.receiver ∧
    optsC7.timeout_height_offset = rawArgsW.timeout_height_offset.getD 0 ∧
    optsC7.timeout_duration = Duration.from_secs (rawArgsW.timeout_seconds.getD 0) :=
  ⟨rfl, C7_field_passthrough rawArgsW cfgW optsC7 rfl⟩

/-- C8: `validate_options` is a deterministic pure function of the raw input
and the configuration — equal inputs and equal configurations give equal
results — and it performs no network activity: in any run whose validation
fails, no query is issued and the dispatcher is not invoked, whatever the
oracle would have answered. -/
theorem C8_validate_pure
    (cmd1 cmd2 : TxIcs20MsgTransferCmd) (config1 config2 : Config) (w : World)
    (h1 : cmd1 = cmd2) (h2 : config1 = config2) :
    validate_options cmd1 config1 = validate_options cmd2 config2 ∧
    (∀ e, validate_options cmd1 config1 = .error e →
      (run cmd1 config1 w).channel_queries = [] ∧
      (run cmd1 config1 w).connection_queries = [] ∧
      (run cmd1 config1 w).client_state_queries = [] ∧
      (run cmd1 config1 w).dispatch_calls = []) := by
  subst h1
  subst h2
  refine ⟨rfl, fun e he => ?_⟩
  simp [run, he]

theorem C8_witness :
    validate_options { cmdW with src_chain_id := "chain-x" } cfgW =
      validate_options { cmdW with src_chain_id := "chain-x" } cfgW ∧
    (run { cmdW with src_chain_id := "chain-x" } cfgW wGood).channel_queries = [] ∧
    (run { cmdW with src_chain_id := "chain-x" } cfgW wGood).connection_queries = [] ∧
    (run { cmdW with src_chain_id := "chain-x" } cfgW wGood).client_state_queries = [] ∧
    (run { cmdW with src_chain_id := "chain-x" } cfgW wGood).dispatch_calls = [] :=
  ⟨(C8_validate_pure { cmdW with src_chain_id := "chain-x" }
      { cmdW with src_chain_id := "chain-x" } cfgW cfgW wGood rfl rfl).1,
   (C8_validate_pure { cmdW with src_chain_id := "chain-x" }
      { cmdW with src_chain_id := "chain-x" } cfgW cfgW wGood rfl rfl).2
     (missingSrcMsg "chain-x") rfl⟩

/-- C10: validation errors follow a fixed precedence: a missing source-chain
configuration is reported even when the destination is also missing and the
count is 0; a missing destination-chain configuration is reported (source
present) even when the count is 0; the zero-count error is reported only
when both lookups succeed. -/
theorem C10_error_precedence
    (cmd : TxIcs20MsgTransferCmd) (config : Config) :
    (find_chain config cmd.src_chain_id = none →
      validate_options cmd config = .error (missingSrcMsg cmd.src_chain_id)) ∧
    (∀ c, find_chain config cmd.src_chain_id = some c →
      find_chain config cmd.dst_chain_id = none →
      cmd.number_msgs = some 0 →
      validate_options cmd config = .error (missingDstMsg cmd.dst_chain_id)) ∧
    (∀ c d, find_chain config cmd.src_chain_id = some c →
      find_chain config cmd.dst_chain_id = some d →
      cmd.number_msgs = some 0 →
      validate_options cmd config = .error numberMsgsZeroMsg) := by
  refine ⟨fun hs => ?_, fun c hs hd h0 => ?_, fun c d hs hd h0 => ?_⟩
  · simp only [validate_options, hs]
  · simp only [validate_options, hs, hd]
  · simp [validate_options, hs, hd, h0]

theorem C10_witness :
    validate_options cmdAllThreeBad cfgW = .error (missingSrcMsg "chain-x") ∧
    validate_options cmdDstBadZero cfgW = .error (missingDstMsg "chain-y") ∧
    validate_options cmdZeroMsgs cfgW = .error numberMsgsZeroMsg :=
  ⟨(C10_error_precedence cmdAllThreeBad cfgW).1 rfl,
   (C10_error_precedence cmdDstBadZero cfgW).2.1
     { id := "chain-a", key_name := "key-a" } rfl rfl rfl,
   (C10_error_precedence cmdZeroMsgs cfgW).2.2
     { id := "chain-a", key_name := "key-a" }
     { id := "chain-b", key_name := "key-b" } rfl rfl rfl⟩

/-- C2: in every run, the transfer dispatcher is invoked (and then exactly
once) if and only if validation and the three path-verification checks —
channel open, non-empty hop list, destination chain match — all succeed, and
every invocation receives exactly the `TransferOptions` value produced by
validation, unchanged by the verification steps. -/
theorem C2_dispatch_exactly_once
    (cmd : TxIcs20MsgTransferCmd) (config : Config) (w : World) :
    ((run cmd config w).dispatch_calls ≠ [] ↔
      ∃ opts ch cid conn cs,
        validate_options cmd config = .ok opts ∧
        w.spawn = .ok () ∧
        w.query_channel opts.packet_src_port_id opts.packet_src_channel_id = .ok ch ∧
        ch.is_open = true ∧
        ch.connection_hops.head? = some cid ∧
        w.query_connection cid = .ok conn ∧
        w.query_client_state conn.client_id = .ok cs ∧
        cs.chain_id = cmd.dst_chain_id) ∧
    (∀ opts, validate_options cmd config = .ok opts →
      (run cmd config w).dispatch_calls = [] ∨
      (run cmd config w).dispatch_calls = [opts]) := by
  constructor
  · rcases hv : validate_options cmd config with e | opts
    · simp [run, hv]
    · rcases hs : w.spawn with e | u
      · simp [run, hv, hs]
      · cases u
        rcases hch : w.query_channel opts.packet_src_port_id opts.packet_src_channel_id with e | ch
        · simp [run, hv, hs, hch]
        · by_cases hopen : ch.is_open
          · rcases hhop : ch.connection_hops.head? with _ | cid
            · simp [run, hv, hs, hch, hopen, hhop]
            · rcases hconn : w.query_connection cid with e | conn
              · simp [run, hv, hs, hch, hopen, hhop, hconn]
              · rcases hcs : w.query_client_state conn.client_id with e | cs
                · simp [run, hv, hs, hch, hopen, hhop, hconn, hcs]
                · by_cases heq : cs.chain_id = cmd.dst_chain_id
                  · rcases hd : w.dispatch opts with e | ev <;>
                      simp [run, hv, hs, hch, hopen, hhop, hconn, hcs, heq, hd]
                  · simp [run, hv, hs, hch, hopen, hhop, hconn, hcs, heq]
          · simp [run, hv, hs, hch, hopen]
  · intro opts hv
    rcases hs : w.spawn with e | ⟨⟩
    · simp [run, hv, hs]
    · rcases hch : w.query_channel opts.packet_src_port_id opts.packet_src_channel_id with e | ch
      · simp [run, hv, hs, hch]
      · by_cases hopen : ch.is_open
        · rcases hhop : ch.connection_hops.head? with _ | cid
          · simp [run, hv, hs, hch, hopen, hhop]
          · rcases hconn : w.query_connection cid with e | conn
            · simp [run, hv, hs, hch, hopen, hhop, hconn]
            · rcases hcs : w.query_client_state conn.client_id with e | cs
              · simp [run, hv, hs, hch, hopen, hhop, hconn, hcs]
              · by_cases heq : cs.chain_id = cmd.dst_chain_id
                · rcases hd : w.dispatch opts with e | ev <;>
                    simp [run, hv, hs, hch, hopen, hhop, hconn, hcs, heq, hd]
                · simp [run, hv, hs, hch, hopen, hhop, hconn, hcs, heq]
        · simp [run, hv, hs, hch, hopen]

theorem C2_witness :
    ((run cmdW cfgW wGood).dispatch_calls = [] ∨
      (run cmdW cfgW wGood).dispatch_calls = [optsW]) ∧
    (run cmdW cfgW wGood).dispatch_calls ≠ [] :=
  ⟨(C2_dispatch_exactly_once cmdW cfgW wGood).2 optsW rfl,
   (C2_dispatch_exactly_once cmdW cfgW wGood).1.mpr
     ⟨optsW, chOpen, "connection-0", { client_id := "07-tendermint-0" },
      { chain_id := "chain-b" }, rfl, rfl, rfl, rfl, rfl, rfl, rfl, rfl⟩⟩

/-- C9: every run produces exactly one terminal outcome — a success report
carrying the dispatcher's event sequence, or an error report carrying one
message — never zero, never more than one, and never both; a success outcome
always carries exactly the event list returned by the single dispatcher
invocation on the validated options. -/
theorem C9_single_terminal_outcome
    (cmd : TxIcs20MsgTransferCmd) (config : Config) (w : World) :
    ((∃ evs, (run cmd config w).outcome = Output.success evs) ∨
      (∃ m, (run cmd config w).outcome = Output.error m)) ∧
    (∀ evs m, (run cmd config w).outcome = Output.success evs →
      (run cmd config w).outcome ≠ Output.error m) ∧
    (∀ evs, (run cmd config w).outcome = Output.success evs →
      ∃ opts, validate_options cmd config = .ok opts ∧
        (run cmd config w).dispatch_calls = [opts] ∧
        w.dispatch opts = .ok evs) := by
  refine ⟨?_, ?_, ?_⟩
  · rcases h : (run cmd config w).outcome with evs | m
    · exact .inl ⟨evs, rfl⟩
    · exact .inr ⟨m, rfl⟩
  · intro evs m hsucc
    rw [hsucc]
    simp
  · intro evs hsucc
    rcases hv : validate_options cmd config with e | opts
    · simp [run, hv] at hsucc
    · rcases hs : w.spawn with e | ⟨⟩
      · simp [run, hv, hs] at hsucc
      · rcases hch : w.query_channel opts.packet_src_port_id opts.packet_src_channel_id with e | ch
        · simp [run, hv, hs, hch] at hsucc
        · by_cases hopen : ch.is_open
          · rcases hhop : ch.connection_hops.head? with _ | cid
            · simp [run, hv, hs, hch, hopen, hhop] at hsucc
            · rcases hconn : w.query_connection cid with e | conn
              · simp [run, hv, hs, hch, hopen, hhop, hconn] at hsucc
              · rcases hcs : w.query_client_state conn.client_id with e | cs
                · simp [run, hv, hs, hch, hopen, hhop, hconn, hcs] at hsucc
                · by_cases heq : cs.chain_id = cmd.dst_chain_id
                  · rcases hd : w.dispatch opts with e | ev
                    · simp [run, hv, hs, hch, hopen, hhop, hconn, hcs, heq, hd] at hsucc
                    · simp only [run, hv, hs, hch, hopen, hhop, hconn, hcs, heq, hd] at hsucc
                      refine ⟨opts, rfl, ?_, ?_⟩
                      · simp [run, hv, hs, hch, hopen, hhop, hconn, hcs, heq, hd]
                      · rw [hd]
                        simpa [run, hv, hs, hch, hopen, hhop, hconn, hcs, heq, hd] using hsucc
                  · simp [run, hv, hs, hch, hopen, hhop, hconn, hcs, heq] at hsucc
          · simp [run, hv, hs, hch, hopen] at hsucc

theorem C9_witness :
    (run cmdW cfgW wGood).outcome = Output.success ["send_packet"] ∧
    ∃ opts, validate_options cmdW cfgW = .ok opts ∧
      (run cmdW cfgW wGood).dispatch_calls = [opts] ∧
      wGood.dispatch opts = .ok ["send_packet"] :=
  ⟨rfl, (C9_single_terminal_outcome cmdW cfgW wGood).2.2 ["send_packet"] rfl⟩

end IbcTransfer
